import Mathlib

/-!
Verification development for the mynta-stratum solo-mining server.

Shallow embedding of the core components in Lean 4:
JavaScript numbers are modelled as rationals, machine state is passed
explicitly, and fallible operations return Option or explicit result
structures.  Each definition mirrors one function of the source tree
(libs/class.VarDiff.js, libs/class.Stratum.js, libs/class.RpcClient.js,
libs/class.Server.js, libs/service.algorithm.js).
-/

set_option maxRecDepth 8000

namespace Mynta

/-! ## VarDiff engine (libs/class.VarDiff.js) -/

/-- Configuration of the VarDiff engine, as stored by the constructor of
class.VarDiff.js (fields enabled, minDiff, maxDiff, targetShareTime,
retargetTime, variancePercent, adjustmentFactor, useProportional). -/
structure VarDiffConfig where
  enabled : Bool
  minDiff : ℚ
  maxDiff : ℚ
  targetShareTime : ℚ
  retargetTime : ℚ
  variancePercent : ℚ
  adjustmentFactor : ℚ
  useProportional : Bool
deriving DecidableEq, Repr

/-- The per-client state read and written by the VarDiff integration in
class.Stratum.js submitShare: current difficulty, wall-clock time (ms) of the
last difficulty update, and the ring of recorded share timestamps (ms). -/
structure StratumClient where
  diff : ℚ
  lastDifficultyUpdate : ℚ
  shareTimestamps : List ℚ
deriving DecidableEq, Repr

/-- Result object returned by checkAdjustment (shouldAdjust is always true on
the returned object, so it is omitted). -/
structure Adjustment where
  newDiff : ℚ
  avgInterval : ℚ
  reason : Option String
deriving DecidableEq, Repr

/-- Rounding used by Number.prototype.toFixed / toPrecision: round to the
nearest integer, halves up, for the nonnegative values used here. -/
def jsRound (q : ℚ) : ℤ := ⌊q + 1 / 2⌋

/-- Fuel-driven decimal digit counter (structural, so it evaluates). -/
def digitCountAux : ℕ → ℕ → ℕ
  | 0, _ => 1
  | f + 1, n => if n < 10 then 1 else digitCountAux f (n / 10) + 1

/-- Number of decimal digits of a natural number (1 for 0); fuel 40 covers
every value representable by a JavaScript number in this code. -/
def digitCount (n : ℕ) : ℕ := digitCountAux 40 n

/-- Model of d.toPrecision(6) followed by parseFloat, for d ≥ 1: round to six
significant decimal figures. -/
def toPrecision6 (d : ℚ) : ℚ :=
  let k := digitCount (⌊d⌋).toNat
  if k ≤ 6 then (jsRound (d * 10 ^ (6 - k)) : ℚ) / 10 ^ (6 - k)
  else (jsRound (d / 10 ^ (k - 6)) : ℚ) * 10 ^ (k - 6)

/-- Model of d.toFixed(6) followed by parseFloat: round to six decimal
places. -/
def toFixed6 (d : ℚ) : ℚ := (jsRound (d * 10 ^ 6) : ℚ) / 10 ^ 6

/-- class.VarDiff.js _roundDifficulty: six significant figures for
difficulties ≥ 1, six decimal places below 1. -/
def roundDifficulty (d : ℚ) : ℚ := if 1 ≤ d then toPrecision6 d else toFixed6 d

/-- The clamp Math.min(Math.max(ratio, 0.25), 4) applied to the proportional
scale factor in checkAdjustment. -/
def clampScale (r : ℚ) : ℚ := min (max r (1 / 4)) 4

/-- The loop in checkAdjustment that sums timestamps[i] - timestamps[i-1]
over consecutive entries of the recent window. -/
def sumConsecutiveDiffs (l : List ℚ) : ℚ :=
  (l.zip l.tail).foldl (fun acc p => acc + (p.2 - p.1)) 0

/-- The too-fast / too-slow branch block of checkAdjustment: given the
current difficulty, the computed average interval and the variance bounds,
produce the proposed newDiff (proportional with the clamped ratio, or fixed
factor) together with the reason; when the interval is within bounds the
difficulty is left unchanged and the reason stays null. -/
def proposedAdjustment (cfg : VarDiffConfig) (diff avgInterval lowerBound
    upperBound : ℚ) : ℚ × Option String :=
  if avgInterval < lowerBound then
    (if cfg.useProportional then
      diff * clampScale (cfg.targetShareTime / avgInterval)
    else diff * cfg.adjustmentFactor, some "shares too fast")
  else if upperBound < avgInterval then
    (if cfg.useProportional then
      diff * clampScale (cfg.targetShareTime / avgInterval)
    else diff / cfg.adjustmentFactor, some "shares too slow")
  else (diff, none)

/-- class.VarDiff.js checkAdjustment up to (and including) the bounds clamp,
but before _roundDifficulty and the 1% dead-band: all gates (enabled, ring
length ≥ 10, retarget time elapsed, recentCount ≥ 2), the average-interval
computation, the too-fast / too-slow branches with proportional or fixed
factor, the newDiff ≠ client.diff test, and the clamp
Math.max(minDiff, Math.min(maxDiff, newDiff)).  Returns the clamped proposal,
the average interval (seconds) and the reason. -/
def checkAdjustmentCore (cfg : VarDiffConfig) (c : StratumClient) (now : ℚ) :
    Option (ℚ × ℚ × Option String) :=
  if cfg.enabled = false then none
  else if c.shareTimestamps.length < 10 then none
  else if now - c.lastDifficultyUpdate < cfg.retargetTime * 1000 then none
  else
    let timestamps := c.shareTimestamps
    let startIdx := timestamps.length - 10
    let recentCount := timestamps.length - startIdx
    if recentCount < 2 then none
    else
      let totalInterval := sumConsecutiveDiffs (timestamps.drop startIdx)
      let avgInterval := totalInterval / ((recentCount : ℚ) - 1) / 1000
      let variance := cfg.variancePercent / 100
      let lowerBound := cfg.targetShareTime * (1 - variance)
      let upperBound := cfg.targetShareTime * (1 + variance)
      let pair := proposedAdjustment cfg c.diff avgInterval lowerBound upperBound
      if pair.1 = c.diff then none
      else some (max cfg.minDiff (min cfg.maxDiff pair.1), avgInterval, pair.2)

/-- class.VarDiff.js checkAdjustment: the core above followed by
_roundDifficulty and the sub-1% dead-band
(Math.abs(newDiff - client.diff) / client.diff < 0.01 returns null). -/
def checkAdjustment (cfg : VarDiffConfig) (c : StratumClient) (now : ℚ) :
    Option Adjustment :=
  match checkAdjustmentCore cfg c now with
  | none => none
  | some x =>
    let newDiff := roundDifficulty x.1
    if |newDiff - c.diff| / c.diff < 1 / 100 then none
    else some { newDiff := newDiff, avgInterval := x.2.1, reason := x.2.2 }

/-- class.VarDiff.js getInitialDiff.  The sqrt of the geometric-mean fallback
is JavaScript Math.sqrt on floats, passed in as an opaque function; the
configured-portDiff branch uses no sqrt. -/
def getInitialDiff (cfg : VarDiffConfig) (sqrtFn : ℚ → ℚ)
    (portDiff : Option ℚ) : ℚ :=
  match portDiff with
  | some p => max cfg.minDiff (min cfg.maxDiff p)
  | none => roundDifficulty (sqrtFn (cfg.minDiff * cfg.maxDiff))

/-! ## VarDiff integration in class.Stratum.js submitShare, and the
Server instance surface of class.Server.js -/

/-- The instance members defined by the Server class in class.Server.js
(methods, getters and private helpers).  Note that sendDifficultyUpdate is
not among them. -/
def serverMethodNames : List String :=
  ["clientCount", "start", "_handleServerError", "stop", "sendMiningJob",
   "forEachClient", "_onClientConnect", "_reEmit"]

/-- Modelled from the spec: class.Client.js is not part of the sources at
hand; its recordShare method, per §4.3 and the data model, appends the
current wall-clock timestamp (ms) to the ring of at most 100 recent share
timestamps. -/
def recordShare (c : StratumClient) (now : ℚ) : StratumClient :=
  let ts := c.shareTimestamps ++ [now]
  { c with shareTimestamps := if 100 < ts.length then ts.drop (ts.length - 100) else ts }

/-- Outcome of the vardiff block of class.Stratum.js submitShare for one
share: the resulting client state, whether a mining.set_difficulty
notification went out, and the message of a raised exception if any.
The call _._server.sendDifficultyUpdate(client) resolves the method name on
the Server instance; an absent member yields a TypeError at call time. -/
structure SubmitVarDiffResult where
  client : StratumClient
  sentSetDifficulty : Bool
  thrown : Option String
deriving DecidableEq, Repr

/-- class.Stratum.js submitShare, lines 363-392: on a valid share, record
the timestamp, run checkAdjustment, and if an adjustment is returned set
client.diff and client.lastDifficultyUpdate and then invoke
_server.sendDifficultyUpdate(client). -/
def submitShareVarDiff (cfg : VarDiffConfig) (c : StratumClient)
    (isValidShare : Bool) (now : ℚ) : SubmitVarDiffResult :=
  if isValidShare then
    let c1 := recordShare c now
    match checkAdjustment cfg c1 now with
    | some adj =>
      let c2 := { c1 with diff := adj.newDiff, lastDifficultyUpdate := now }
      if serverMethodNames.contains "sendDifficultyUpdate" then
        { client := c2, sentSetDifficulty := true, thrown := none }
      else
        { client := c2, sentSetDifficulty := false,
          thrown := some "TypeError: this server sendDifficultyUpdate is not a function" }
    | none => { client := c1, sentSetDifficulty := false, thrown := none }
  else { client := c, sentSetDifficulty := false, thrown := none }

/-! ## Block submission path of class.Stratum.js (submitShare block branch,
_submitBlock, _checkBlockAccepted) -/

/-- The share fields observable on the shareSubmitted event that matter to
the block submission path. -/
structure Share where
  isValidShare : Bool
  isValidBlock : Bool
  blockTxId : Option String
deriving DecidableEq, Repr

/-- Upstream reply to the submitblock RPC as seen by the _submitBlock
callback: either a transport/RPC error, or a result value that is null on
acceptance and a rejection-reason string otherwise. -/
inductive SubmitBlockReply where
  | rpcError (msg : String)
  | result (r : Option String)
deriving DecidableEq, Repr

/-- Upstream reply to the getblock RPC as seen by the _checkBlockAccepted
callback: an error, or the block object carrying its txId. -/
inductive GetBlockReply where
  | rpcError (msg : String)
  | ok (txId : String)
deriving DecidableEq, Repr

/-- class.Stratum.js _submitBlock: an RPC error is passed through; a
non-null result is converted into an Error object; a null result succeeds. -/
def submitBlockOutcome : SubmitBlockReply → Option String
  | .rpcError msg => some msg
  | .result (some r) => some ("Block rejected: " ++ r)
  | .result none => none

/-- class.Stratum.js submitShare, block branch (lines 395-427): the share
that reaches _emitShare, as a function of the upstream replies.  On a
_submitBlock error the share is emitted as-is; on success, updateJob runs and
_checkBlockAccepted either attaches blockTxId or clears isValidBlock. -/
def submitShareBlockPath (share : Share) (sb : SubmitBlockReply)
    (gb : GetBlockReply) : Share :=
  if share.isValidBlock then
    match submitBlockOutcome sb with
    | some _ => share
    | none =>
      match gb with
      | .rpcError _ => { share with isValidBlock := false }
      | .ok txId => { share with blockTxId := some txId }
  else share

/-! ## Retarget timing (claim about monotonic versus wall-clock time) -/

/-- One processed valid share: the monotonic clock reading and the
wall-clock reading (both ms) at the time submitShare runs, and the
share-timestamp ring contents the client carries at that point. -/
structure ShareEvent where
  mono : ℚ
  wall : ℚ
  ring : List ℚ
deriving DecidableEq, Repr

/-- Processing of one valid share by class.Stratum.js submitShare: the ring
is whatever recordShare left in the client, then checkAdjustment runs with
Date.now() = wall, and a successful adjustment updates diff and
lastDifficultyUpdate.  Returns the new state and, when an adjustment
happened, the (mono, wall) clock readings at that adjustment. -/
def applyShareEvent (cfg : VarDiffConfig) (c : StratumClient)
    (ev : ShareEvent) : StratumClient × Option (ℚ × ℚ) :=
  let c1 := { c with shareTimestamps := ev.ring }
  match checkAdjustment cfg c1 ev.wall with
  | some adj =>
    ({ c1 with diff := adj.newDiff, lastDifficultyUpdate := ev.wall }, some (ev.mono, ev.wall))
  | none => (c1, none)

/-- Folding a sequence of valid shares through submitShare, collecting the
(mono, wall) clock readings of every successful difficulty adjustment. -/
def runShares (cfg : VarDiffConfig) (c : StratumClient) :
    List ShareEvent → StratumClient × List (ℚ × ℚ)
  | [] => (c, [])
  | ev :: rest =>
    let r := applyShareEvent cfg c ev
    let rr := runShares cfg r.1 rest
    (rr.1, match r.2 with | some a => a :: rr.2 | none => rr.2)

/-! ## class.Server.js stop -/

/-- The Server state touched by stop: the _isStopped flag, whether a net
server object exists, whether its listener has been closed, and the client
map (subscription id keyed). -/
structure ServerState where
  isStopped : Bool
  hasListener : Bool
  listenerClosed : Bool
  clientMap : List (String × String)
deriving DecidableEq, Repr

/-- Observable actions performed by one stop call. -/
inductive StopAction where
  | disconnect (subscriptionId reason : String)
  | closeListener
  | callbackNow
deriving DecidableEq, Repr

/-- class.Server.js clientCount getter. -/
def clientCount (s : ServerState) : ℕ := s.clientMap.length

/-- class.Server.js stop: an already-stopped server only invokes the
callback; otherwise set _isStopped, disconnect every client with the
shutdown reason and clear the map, then close the listener (when one
exists) and call back.  (The 5-second force-callback timer is a concurrency
artefact outside this state model.) -/
def stop (s : ServerState) : ServerState × List StopAction :=
  if s.isStopped then (s, [.callbackNow])
  else
    let disconnects := s.clientMap.map
      (fun p => StopAction.disconnect p.1 "Server shutting down")
    let s2 : ServerState :=
      { s with isStopped := true, clientMap := [] }
    if s.hasListener then
      ({ s2 with listenerClosed := true }, disconnects ++ [.closeListener, .callbackNow])
    else (s2, disconnects ++ [.callbackNow])

/-! ## service.algorithm.js verify -/

/-- A JavaScript value as classified by the guards of verify: a Buffer of a
given byte length, an integral number, a non-integral number, or anything
else. -/
inductive JsArg where
  | buffer (len : ℕ)
  | intNum (n : ℤ)
  | nonIntNum
  | other
deriving DecidableEq, Repr

/-- Buffer.isBuffer(x) && x.length === n. -/
def isBuf (a : JsArg) (n : ℕ) : Bool :=
  match a with
  | .buffer m => m == n
  | _ => false

/-- typeof x === number && x >= 0 && Number.isInteger(x). -/
def heightOk : JsArg → Bool
  | .intNum n => decide (0 ≤ n)
  | _ => false

/-- The argument bundle of service.algorithm.js verify. -/
structure VerifyArgs where
  headerHashBuf : JsArg
  nonceBuf : JsArg
  blockHeight : JsArg
  mixHashBuf : JsArg
  hashOutBuf : JsArg
deriving DecidableEq, Repr

/-- service.algorithm.js verify: input guards checked in source order, then
the call into the native kawpow.verify, modelled as an opaque boolean
function. -/
def verify (kawpowLoaded : Bool) (native : VerifyArgs → Bool)
    (a : VerifyArgs) : Bool :=
  if kawpowLoaded = false then false
  else if isBuf a.headerHashBuf 32 = false then false
  else if isBuf a.nonceBuf 8 = false then false
  else if heightOk a.blockHeight = false then false
  else if isBuf a.mixHashBuf 32 = false then false
  else if isBuf a.hashOutBuf 32 = false then false
  else native a

/-! ## class.RpcClient.js retry policy -/

/-- An error value as inspected by _shouldRetry: its message, a string
error code when the error carries one (transport errors), a numeric code
when it is an RPC-level error, and the isAuthError / isRpcError marks set
by _parseResponse. -/
structure RpcError where
  message : String
  codeStr : Option String
  codeNum : Option ℤ
  isAuthError : Bool
  isRpcError : Bool
deriving DecidableEq, Repr

/-- Substring test used for err.message.includes of JavaScript. -/
def startsWithSeq : List Char → List Char → Bool
  | _, [] => true
  | [], _ :: _ => false
  | c :: s, p :: ps => c = p && startsWithSeq s ps

/-- Whether pat occurs as a contiguous subsequence of s. -/
def containsSeq (s pat : List Char) : Bool :=
  match s with
  | [] => pat.isEmpty
  | _ :: rest => startsWithSeq s pat || containsSeq rest pat

/-- JavaScript String.prototype.includes. -/
def containsSub (s pat : String) : Bool := containsSeq s.data pat.data

/-- The retryable transport error codes of class.RpcClient.js. -/
def retryableCodes : List String :=
  ["ECONNREFUSED", "ECONNRESET", "ETIMEDOUT", "ENOTFOUND", "ENETUNREACH",
   "EHOSTUNREACH", "EPIPE", "EAI_AGAIN"]

/-- class.RpcClient.js _shouldRetry: no error is not retried; a string code
in the retryable list is retried; a message containing timeout is retried;
auth and RPC-level errors are not; everything else is not. -/
def shouldRetry : Option RpcError → Bool
  | none => false
  | some err =>
    if (match err.codeStr with
        | some c => retryableCodes.contains c
        | none => false) then true
    else if containsSub err.message "timeout" then true
    else if err.isAuthError || err.isRpcError then false
    else false

/-- The HTTP 401 error constructed by _parseResponse. -/
def authError401 : RpcError :=
  { message := "RPC authentication failed - invalid username or password",
    codeStr := none, codeNum := none, isAuthError := true, isRpcError := false }

/-- The HTTP 403 error constructed by _parseResponse. -/
def authError403 : RpcError :=
  { message := "RPC access forbidden - IP not allowed",
    codeStr := none, codeNum := none, isAuthError := true, isRpcError := false }

/-- An RPC-level error response as constructed by _parseResponse from a
parsed error: body message and numeric error code, isRpcError set. -/
def mkRpcError (msg : String) (code : ℤ) : RpcError :=
  { message := msg, codeStr := none, codeNum := some code,
    isAuthError := false, isRpcError := true }

/-- The retry loop of class.RpcClient.js cmd: starting from retryCount rc,
take the outcome of attempt rc from the environment; stop on success, or
retry while _shouldRetry holds and rc < retryAttempts.  Returns the
retryCount of the final attempt.  Fuel-driven for structural recursion;
cmdFinalRc supplies sufficient fuel. -/
def cmdFinalRcAux (responses : ℕ → Except RpcError Unit) (retryAttempts : ℕ) :
    ℕ → ℕ → ℕ
  | 0, rc => rc
  | fuel + 1, rc =>
    match responses rc with
    | .ok _ => rc
    | .error e =>
      if shouldRetry (some e) = true ∧ rc < retryAttempts then
        cmdFinalRcAux responses retryAttempts fuel (rc + 1)
      else rc

/-- Index (retryCount) of the attempt whose outcome cmd delivers to the
callback. -/
def cmdFinalRc (responses : ℕ → Except RpcError Unit) (retryAttempts : ℕ) : ℕ :=
  cmdFinalRcAux responses retryAttempts (retryAttempts + 1) 0

/-- class.RpcClient.js cmd: the (final retryCount, callback outcome) pair —
the callback always receives the outcome of the final attempt. -/
def cmdRun (responses : ℕ → Except RpcError Unit) (retryAttempts : ℕ) :
    ℕ × Except RpcError Unit :=
  let rc := cmdFinalRc responses retryAttempts
  (rc, responses rc)

/-! ## class.RpcClient.js _tryParseJson and its nan fix-up

JSON.parse is a JavaScript builtin, not repository code.  It is modelled
from the spec here, restricted to the fragment the RPC responses use:
objects with string keys, integer numbers, strings and null. -/

/-- Structured value produced by parsing. -/
inductive Json where
  | null : Json
  | num : ℤ → Json
  | str : List Char → Json
  | obj : List (List Char × Json) → Json

/-- Skip JSON whitespace. -/
def skipWs : List Char → List Char
  | [] => []
  | c :: rest =>
    if c = ' ' ∨ c = '\n' ∨ c = '\t' ∨ c = '\r' then skipWs rest else c :: rest

/-- Scan a string body up to the closing quote (no escape handling; the
responses modelled here contain none). -/
def scanString : List Char → Option (List Char × List Char)
  | [] => none
  | c :: rest =>
    if c = '"' then some ([], rest)
    else
      match scanString rest with
      | none => none
      | some (a, r) => some (c :: a, r)

/-- Parse a nonempty run of decimal digits. -/
def parseDigits (s : List Char) : Option (ℕ × List Char) :=
  let ds := s.takeWhile Char.isDigit
  if ds.isEmpty then none
  else some (ds.foldl (fun acc c => acc * 10 + (c.toNat - 48)) 0, s.dropWhile Char.isDigit)

/-- The literal null. -/
def nullLit : List Char := ['n', 'u', 'l', 'l']

/-- Parser mode: a value, or the body of an object with the pairs read so
far. -/
inductive PMode where
  | value : PMode
  | objBody : List (List Char × Json) → PMode

/-- Modelled from the spec: recursive-descent core of JSON.parse on the
fragment described above.  Fuel-driven; jsonParse supplies sufficient
fuel. -/
def pj : ℕ → PMode → List Char → Option (Json × List Char)
  | 0, _, _ => none
  | fuel + 1, .value, s =>
    match s with
    | [] => none
    | c :: rest =>
      if c = '"' then
        match scanString rest with
        | none => none
        | some (cs, r) => some (.str cs, r)
      else if c = ('\x7b') then pj fuel (.objBody []) (skipWs rest)
      else if c = '-' then
        match parseDigits rest with
        | none => none
        | some (n, r) => some (.num (-(n : ℤ)), r)
      else if c.isDigit then
        match parseDigits (c :: rest) with
        | none => none
        | some (n, r) => some (.num (n : ℤ), r)
      else if startsWithSeq (c :: rest) nullLit then some (.null, (c :: rest).drop 4)
      else none
  | fuel + 1, .objBody acc, s =>
    match skipWs s with
    | [] => none
    | c :: rest =>
      if c = ('\x7d') then some (.obj acc.reverse, rest)
      else if c = '"' then
        match scanString rest with
        | none => none
        | some (key, r1) =>
          match skipWs r1 with
          | ':' :: r2 =>
            (match pj fuel .value (skipWs r2) with
            | none => none
            | some (v, r3) =>
              match skipWs r3 with
              | ',' :: r4 => pj fuel (.objBody ((key, v) :: acc)) r4
              | c2 :: r4 =>
                if c2 = ('\x7d') then some (.obj ((key, v) :: acc).reverse, r4) else none
              | [] => none)
          | _ => none
      else none

/-- Modelled from the spec: JSON.parse on a whole text — a single value
with only whitespace around it. -/
def jsonParse (s : List Char) : Option Json :=
  match pj (s.length + 2) .value (skipWs s) with
  | none => none
  | some (v, r) => if (skipWs r).isEmpty then some v else none

/-- One pass of String.prototype.replace with a global pattern: leftmost
non-overlapping occurrences of pat are replaced by rep, and the replacement
text is not rescanned.  Fuel-driven; replaceAll supplies sufficient fuel. -/
def replaceAllAux : ℕ → List Char → List Char → List Char → List Char
  | 0, s, _, _ => s
  | fuel + 1, s, pat, rep =>
    match s with
    | [] => []
    | c :: rest =>
      if startsWithSeq s pat then rep ++ replaceAllAux fuel (s.drop pat.length) pat rep
      else c :: replaceAllAux fuel rest pat rep

/-- JavaScript json.replace(global pat, rep) for a nonempty plain-text
pattern. -/
def replaceAll (s pat rep : List Char) : List Char := replaceAllAux s.length s pat rep

/-- Search key of the first indexOf test in _tryParseJson. -/
def minusNanKey : List Char := ":-nan".data

/-- Pattern of the first replace in _tryParseJson (note: includes the
comma). -/
def minusNanComma : List Char := ":-nan,".data

/-- Search key of the second indexOf test in _tryParseJson. -/
def nanKey : List Char := ":nan".data

/-- Pattern of the second replace in _tryParseJson (note: includes the
comma). -/
def nanComma : List Char := ":nan,".data

/-- Replacement text of both replaces in _tryParseJson (note: no comma). -/
def colonZero : List Char := ":0".data

/-- Result of _tryParseJson: a parsed value, a parse failure (the error
branch), or non-termination of the recursion within the given fuel. -/
inductive TryParseResult where
  | ok (v : Json)
  | failed
  | diverged

/-- Whether a result is the parse-failure outcome. -/
def TryParseResult.isFailed : TryParseResult → Bool
  | .failed => true
  | _ => false

/-- Whether a result is the non-termination marker. -/
def TryParseResult.isDiverged : TryParseResult → Bool
  | .diverged => true
  | _ => false

/-- class.RpcClient.js _tryParseJson: try JSON.parse; on failure, if the
text contains :-nan, recurse on the text with :-nan, replaced by :0; else
if it contains :nan, recurse with :nan, replaced by :0; else report the
parse error.  The JavaScript original recurses without fuel; fuel 0 marks a
run that exceeds any finite recursion depth. -/
def tryParseJson : ℕ → List Char → TryParseResult
  | 0, _ => .diverged
  | fuel + 1, s =>
    match jsonParse s with
    | some v => .ok v
    | none =>
      if containsSeq s minusNanKey then
        tryParseJson fuel (replaceAll s minusNanComma colonZero)
      else if containsSeq s nanKey then
        tryParseJson fuel (replaceAll s nanComma colonZero)
      else .failed

/-- Left brace as a string (written via its code point). -/
def lbrace : String := String.singleton ('\x7b')

/-- Right brace as a string (written via its code point). -/
def rbrace : String := String.singleton ('\x7d')

/-- The response body of the repository unit test should handle NaN values
in response (test/unit/rpc-client.test.js): an object with value:-nan
followed by a comma. -/
def nanBody1 : List Char :=
  (lbrace ++ "\"result\":" ++ lbrace ++ "\"value\":-nan,\"other\":1" ++ rbrace ++
   ",\"error\":null,\"id\":0" ++ rbrace).data

/-- The response body of the repository unit test should handle NaN at end
of object: value:-nan directly before the closing brace. -/
def nanBody2 : List Char :=
  (lbrace ++ "\"result\":" ++ lbrace ++ "\"value\":-nan" ++ rbrace ++
   ",\"error\":null,\"id\":0" ++ rbrace).data

/-! ## Concrete configurations and states used in counterexamples and
witnesses -/

/-- The VarDiff configuration built by class.Stratum.js _createVarDiff with
an empty vardiff config section (all defaults). -/
def cfgDefault : VarDiffConfig :=
  { enabled := true, minDiff := 1 / 1000, maxDiff := 1000000,
    targetShareTime := 15, retargetTime := 90, variancePercent := 30,
    adjustmentFactor := 2, useProportional := true }

/-- A client mining at difficulty 1 whose ring already holds ten shares one
second apart, 100 s after its last difficulty update. -/
def clientFast : StratumClient :=
  { diff := 1, lastDifficultyUpdate := 0,
    shareTimestamps := [91000, 92000, 93000, 94000, 95000, 96000, 97000,
      98000, 99000, 100000] }

/-- The same miner one share earlier: nine timestamps, the tenth arriving
at t = 100000 ms. -/
def clientFast9 : StratumClient :=
  { diff := 1, lastDifficultyUpdate := 0,
    shareTimestamps := [91000, 92000, 93000, 94000, 95000, 96000, 97000,
      98000, 99000] }

/-- A legal configuration with a very small minimum difficulty,
1 / 10000000 (precon only requires positive numbers with
minDiff < maxDiff). -/
def cfgTiny : VarDiffConfig :=
  { enabled := true, minDiff := 1 / 10000000, maxDiff := 1000000,
    targetShareTime := 15, retargetTime := 90, variancePercent := 30,
    adjustmentFactor := 2, useProportional := true }

/-- A client at difficulty 1 / 1000000 (within the cfgTiny bounds) whose
last ten shares are 60 s apart. -/
def clientTiny : StratumClient :=
  { diff := 1 / 1000000, lastDifficultyUpdate := 0,
    shareTimestamps := [100000, 160000, 220000, 280000, 340000, 400000,
      460000, 520000, 580000, 640000] }

/-- A fresh client before any share. -/
def client0 : StratumClient :=
  { diff := 1, lastDifficultyUpdate := 0, shareTimestamps := [] }

/-- First share event of the wall-clock trace: monotonic clock 0 ms, wall
clock 100000 ms, ring of ten one-second-spaced shares. -/
def ev1 : ShareEvent :=
  { mono := 0, wall := 100000,
    ring := [91000, 92000, 93000, 94000, 95000, 96000, 97000, 98000, 99000,
      100000] }

/-- Second share event: the monotonic clock has advanced only 1 ms, but the
wall clock read by Date.now() has stepped forward 90 s. -/
def ev2 : ShareEvent :=
  { mono := 1, wall := 190000,
    ring := [181000, 182000, 183000, 184000, 185000, 186000, 187000, 188000,
      189000, 190000] }

/-- A running server with two connected clients and a live listener. -/
def serverRunning : ServerState :=
  { isStopped := false, hasListener := true, listenerClosed := false,
    clientMap := [("00000001", "miner1"), ("00000002", "miner2")] }

/-- A response environment whose first attempt fails with an RPC-level
error mentioning a timeout, and whose second attempt succeeds. -/
def respRpcTimeout : ℕ → Except RpcError Unit :=
  fun n => if n = 0 then .error (mkRpcError "rpc operation timeout" (-1)) else .ok ()

/-- A native hasher that accepts everything (used to show the guards decide
the result independently of the native). -/
def nativeTrue : VerifyArgs → Bool := fun _ => true

/-- A native hasher that rejects everything. -/
def nativeFalse : VerifyArgs → Bool := fun _ => false

/-- Arguments whose nonce is a 7-byte Buffer (all other guards would
pass). -/
def argsBadNonce : VerifyArgs :=
  { headerHashBuf := .buffer 32, nonceBuf := .buffer 7, blockHeight := .intNum 100,
    mixHashBuf := .buffer 32, hashOutBuf := .buffer 32 }

/-- A share that validated as a block. -/
def shareBlock : Share :=
  { isValidShare := true, isValidBlock := true, blockTxId := none }

/-! ## Helper lemmas (shared) -/

/-- Rounding a difficulty of 4 is the identity. -/
theorem roundDifficulty_four : roundDifficulty (4 : ℚ) = 4 := by
  have hf0 : ⌊(4 : ℚ)⌋ = 4 := by norm_num
  have hf : (⌊(4 : ℚ)⌋).toNat = 4 := by rw [hf0]; rfl
  have hk : digitCount 4 = 1 := by decide
  rw [roundDifficulty, if_pos (by norm_num : (1 : ℚ) ≤ 4), toPrecision6]
  simp only [hf, hk, jsRound]
  norm_num

/-- Rounding a difficulty of 16 is the identity. -/
theorem roundDifficulty_sixteen : roundDifficulty (16 : ℚ) = 16 := by
  have hf0 : ⌊(16 : ℚ)⌋ = 16 := by norm_num
  have hf : (⌊(16 : ℚ)⌋).toNat = 16 := by rw [hf0]; rfl
  have hk : digitCount 16 = 2 := by decide
  rw [roundDifficulty, if_pos (by norm_num : (1 : ℚ) ≤ 16), toPrecision6]
  simp only [hf, hk, jsRound]
  norm_num

/-- Rounding 1/4000000 (2.5e-7) to six decimal places yields 0. -/
theorem roundDifficulty_tiny : roundDifficulty (1 / 4000000 : ℚ) = 0 := by
  rw [roundDifficulty, if_neg (by norm_num : ¬(1 : ℚ) ≤ 1 / 4000000), toFixed6]
  simp only [jsRound]
  norm_num

/-- A successful checkAdjustmentCore passed all its gates: vardiff enabled,
at least ten recorded timestamps, and at least retargetTime seconds
(milliseconds times 1000) since the last difficulty update. -/
theorem checkAdjustmentCore_gates {cfg : VarDiffConfig} {c : StratumClient}
    {now : ℚ} {x : ℚ × ℚ × Option String}
    (h : checkAdjustmentCore cfg c now = some x) :
    cfg.enabled = true ∧ 10 ≤ c.shareTimestamps.length ∧
      cfg.retargetTime * 1000 ≤ now - c.lastDifficultyUpdate := by
  simp only [checkAdjustmentCore] at h
  split at h
  next henb => exact Option.noConfusion h
  next henb =>
    split at h
    next hlen => exact Option.noConfusion h
    next hlen =>
      split at h
      next htime => exact Option.noConfusion h
      next htime =>
        refine ⟨by simpa using henb, by omega, by linarith [not_lt.mp htime]⟩

/-- A successful checkAdjustmentCore returns as first component the clamp
Math.max(minDiff, Math.min(maxDiff, v)) of some proposed value v, namely of
the proposedAdjustment for the computed average interval, and that proposal
differs from the current difficulty. -/
theorem checkAdjustmentCore_clamped {cfg : VarDiffConfig} {c : StratumClient}
    {now : ℚ} {x : ℚ × ℚ × Option String}
    (h : checkAdjustmentCore cfg c now = some x) :
    ∃ avg lo hi, (proposedAdjustment cfg c.diff avg lo hi).1 ≠ c.diff ∧
      x.1 = max cfg.minDiff
        (min cfg.maxDiff (proposedAdjustment cfg c.diff avg lo hi).1) := by
  simp only [checkAdjustmentCore] at h
  split at h
  next => exact Option.noConfusion h
  next =>
    split at h
    next => exact Option.noConfusion h
    next =>
      split at h
      next => exact Option.noConfusion h
      next =>
        split at h
        next => exact Option.noConfusion h
        next =>
          split at h
          next => exact Option.noConfusion h
          next hne =>
            refine ⟨_, _, _, hne, ?_⟩
            rw [← Option.some.injEq] at h
            simp only [Option.some.injEq] at h
            rw [← h]

/-- In proportional mode the proposed difficulty is either unchanged or the
current difficulty times a clamped ratio. -/
theorem proposedAdjustment_prop {cfg : VarDiffConfig}
    (hp : cfg.useProportional = true) (diff avg lo hi : ℚ) :
    (proposedAdjustment cfg diff avg lo hi).1 = diff ∨
      ∃ r, (proposedAdjustment cfg diff avg lo hi).1 = diff * clampScale r := by
  simp only [proposedAdjustment, hp, if_true]
  split
  · right; exact ⟨_, rfl⟩
  · split
    · right; exact ⟨_, rfl⟩
    · left; rfl

/-- A successful checkAdjustment comes from a successful core whose clamped
value it rounds, and the rounded value clears the 1% dead-band. -/
theorem checkAdjustment_some {cfg : VarDiffConfig} {c : StratumClient}
    {now : ℚ} {adj : Adjustment}
    (h : checkAdjustment cfg c now = some adj) :
    ∃ x, checkAdjustmentCore cfg c now = some x ∧
      adj.newDiff = roundDifficulty x.1 ∧
      1 / 100 ≤ |adj.newDiff - c.diff| / c.diff := by
  rw [checkAdjustment] at h
  rcases hcore : checkAdjustmentCore cfg c now with - | x
  · rw [hcore] at h; exact Option.noConfusion h
  · rw [hcore] at h
    simp only at h
    split at h
    next => exact Option.noConfusion h
    next hdb =>
      simp only [Option.some.injEq] at h
      refine ⟨x, rfl, ?_, ?_⟩
      · rw [← h]
      · rw [← h]; simpa using not_lt.mp hdb

/-! ## Claim theorems -/

/-- C7: checkAdjustment proposes no change unless all gates hold — vardiff
enabled, at least 10 recorded share timestamps, at least
retargetTime × 1000 ms elapsed since lastDifficultyUpdate — and a computed
change smaller than 1% of the current difficulty is returned as no change;
equivalently, every returned adjustment has all gates satisfied and a
relative change of at least 1%. -/
theorem checkAdjustment_gates_and_deadband (cfg : VarDiffConfig)
    (c : StratumClient) (now : ℚ) (adj : Adjustment)
    (h : checkAdjustment cfg c now = some adj) :
    cfg.enabled = true ∧ 10 ≤ c.shareTimestamps.length ∧
      cfg.retargetTime * 1000 ≤ now - c.lastDifficultyUpdate ∧
      1 / 100 ≤ |adj.newDiff - c.diff| / c.diff := by
  obtain ⟨x, hx, -, hdb⟩ := checkAdjustment_some h
  obtain ⟨h1, h2, h3⟩ := checkAdjustmentCore_gates hx
  exact ⟨h1, h2, h3, hdb⟩

/-- Witness for C7: a client at difficulty 1 with ten one-second-spaced
shares, 100 s after the last update, receives the adjustment to 4 and
satisfies every gate. -/
theorem checkAdjustment_gates_and_deadband_witness :
    cfgDefault.enabled = true ∧ 10 ≤ clientFast.shareTimestamps.length ∧
      cfgDefault.retargetTime * 1000 ≤ (100000 : ℚ) - clientFast.lastDifficultyUpdate ∧
      1 / 100 ≤ |(Adjustment.mk 4 1 (some "shares too fast")).newDiff -
        clientFast.diff| / clientFast.diff :=
  checkAdjustment_gates_and_deadband cfgDefault clientFast 100000
    (Adjustment.mk 4 1 (some "shares too fast"))
    (by norm_num [checkAdjustment, checkAdjustmentCore, proposedAdjustment,
      sumConsecutiveDiffs, clampScale, roundDifficulty_four, max_def, min_def,
      cfgDefault, clientFast, abs])

/-- C3 counterexample: with the legal configuration cfgTiny
(minDiff = 1e-7 < maxDiff) and a client whose difficulty 1e-6 lies within
bounds, checkAdjustment returns newDiff = 0, which is strictly below
minDiff — the rounding step applied after the clamp leaves the interval
[minDiff, maxDiff]. -/
theorem vardiff_bounds_counterexample :
    cfgTiny.minDiff ≤ clientTiny.diff ∧ clientTiny.diff ≤ cfgTiny.maxDiff ∧
      checkAdjustment cfgTiny clientTiny 700000 =
        some (Adjustment.mk 0 60 (some "shares too slow")) ∧
      (0 : ℚ) < cfgTiny.minDiff := by
  refine ⟨by norm_num [cfgTiny, clientTiny], by norm_num [cfgTiny, clientTiny],
    ?_, by norm_num [cfgTiny]⟩
  norm_num [checkAdjustment, checkAdjustmentCore, proposedAdjustment,
    sumConsecutiveDiffs, clampScale, roundDifficulty_tiny, max_def, min_def,
    cfgTiny, clientTiny, abs]

/-- C3 amended: the difficulty proposed by checkAdjustment is inside
[minDiff, maxDiff] after the clamp and before the final rounding, and
getInitialDiff with a configured portDiff is always inside the bounds; the
rounding step alone can leave the interval (see the counterexample). -/
theorem vardiff_bounds_amended (cfg : VarDiffConfig)
    (hminmax : cfg.minDiff ≤ cfg.maxDiff) :
    (∀ (c : StratumClient) (now : ℚ) (x : ℚ × ℚ × Option String),
        checkAdjustmentCore cfg c now = some x →
        cfg.minDiff ≤ x.1 ∧ x.1 ≤ cfg.maxDiff) ∧
    (∀ (sqrtFn : ℚ → ℚ) (p : ℚ),
        cfg.minDiff ≤ getInitialDiff cfg sqrtFn (some p) ∧
        getInitialDiff cfg sqrtFn (some p) ≤ cfg.maxDiff) := by
  constructor
  · intro c now x h
    obtain ⟨avg, lo, hi, -, hx⟩ := checkAdjustmentCore_clamped h
    rw [hx]
    exact ⟨le_max_left _ _, max_le hminmax (min_le_left _ _)⟩
  · intro sqrtFn p
    simp only [getInitialDiff]
    exact ⟨le_max_left _ _, max_le hminmax (min_le_left _ _)⟩

/-- Witness for the amended C3: for cfgTiny the pre-rounding proposal of
the counterexample run, 1/4000000, does lie within the bounds, and an
initial difficulty request of 5 is clamped into the bounds. -/
theorem vardiff_bounds_amended_witness :
    (cfgTiny.minDiff ≤ ((1 / 4000000 : ℚ), (60 : ℚ),
        some "shares too slow").1 ∧
      ((1 / 4000000 : ℚ), (60 : ℚ), some "shares too slow").1 ≤ cfgTiny.maxDiff) ∧
    (cfgTiny.minDiff ≤ getInitialDiff cfgTiny id (some 5) ∧
      getInitialDiff cfgTiny id (some 5) ≤ cfgTiny.maxDiff) :=
  ⟨(vardiff_bounds_amended cfgTiny (by norm_num [cfgTiny])).1 clientTiny 700000 _
      (by norm_num [checkAdjustmentCore, proposedAdjustment, sumConsecutiveDiffs,
        clampScale, max_def, min_def, cfgTiny, clientTiny]),
   (vardiff_bounds_amended cfgTiny (by norm_num [cfgTiny])).2 id 5⟩

/-- C6 counterexample: in proportional mode, the counterexample run returns
newDiff = 0 for a client at difficulty 1e-6, a single-step ratio of 0,
violating 0.25 ≤ newDiff / currentDiff. -/
theorem swing_cap_counterexample :
    cfgTiny.useProportional = true ∧
      checkAdjustment cfgTiny clientTiny 700000 =
        some (Adjustment.mk 0 60 (some "shares too slow")) ∧
      (Adjustment.mk (0 : ℚ) 60 (some "shares too slow")).newDiff /
          clientTiny.diff < 1 / 4 := by
  refine ⟨rfl, ?_, by norm_num [clientTiny]⟩
  norm_num [checkAdjustment, checkAdjustmentCore, proposedAdjustment,
    sumConsecutiveDiffs, clampScale, roundDifficulty_tiny, max_def, min_def,
    cfgTiny, clientTiny, abs]

/-- C6 amended: in proportional mode the swing cap
0.25 ≤ newDiff / currentDiff ≤ 4 holds for the clamped proposal before the
final rounding, for any client whose difficulty is positive and within
bounds; the rounding step alone can break the cap (see the
counterexample). -/
theorem swing_cap_amended (cfg : VarDiffConfig) (c : StratumClient) (now : ℚ)
    (x : ℚ × ℚ × Option String) (hp : cfg.useProportional = true)
    (hd : 0 < c.diff) (hlo : cfg.minDiff ≤ c.diff) (hhi : c.diff ≤ cfg.maxDiff)
    (h : checkAdjustmentCore cfg c now = some x) :
    1 / 4 ≤ x.1 / c.diff ∧ x.1 / c.diff ≤ 4 := by
  obtain ⟨avg, lo, hi, hne, hx⟩ := checkAdjustmentCore_clamped h
  rcases proposedAdjustment_prop hp c.diff avg lo hi with heq | ⟨r, heq⟩
  · exact absurd heq hne
  · have hs1 : 1 / 4 ≤ clampScale r :=
      le_min (le_max_right r (1 / 4)) (by norm_num)
    have hs4 : clampScale r ≤ 4 := min_le_right _ _
    have hub : x.1 ≤ 4 * c.diff := by
      rw [hx, heq]
      apply max_le
      · linarith
      · refine le_trans (min_le_right _ _) ?_
        nlinarith
    have hlb : c.diff / 4 ≤ x.1 := by
      rw [hx, heq]
      refine le_trans (le_min ?_ ?_) (le_max_right _ _)
      · linarith
      · nlinarith
    constructor
    · rw [le_div_iff₀ hd]; linarith
    · rw [div_le_iff₀ hd]; linarith

/-- Witness for the amended C6: the default configuration with the
ten-fast-shares client yields the clamped proposal 4 from difficulty 1, a
ratio of 4, inside the cap. -/
theorem swing_cap_amended_witness :
    1 / 4 ≤ ((4 : ℚ), (1 : ℚ), some "shares too fast").1 / clientFast.diff ∧
      ((4 : ℚ), (1 : ℚ), some "shares too fast").1 / clientFast.diff ≤ 4 :=
  swing_cap_amended cfgDefault clientFast 100000 _ rfl
    (by norm_num [clientFast]) (by norm_num [cfgDefault, clientFast])
    (by norm_num [cfgDefault, clientFast])
    (by norm_num [checkAdjustmentCore, proposedAdjustment, sumConsecutiveDiffs,
      clampScale, max_def, min_def, cfgDefault, clientFast])

/-- Helper for C8: prepending the initial lastDifficultyUpdate to the
adjustment log keeps the wall-clock retarget spacing as a chain. -/
theorem runShares_chain_aux (cfg : VarDiffConfig) :
    ∀ (events : List ShareEvent) (c : StratumClient),
    List.Chain' (fun a b : ℚ × ℚ => cfg.retargetTime * 1000 ≤ b.2 - a.2)
      (((0 : ℚ), c.lastDifficultyUpdate) :: (runShares cfg c events).2) := by
  intro events
  induction events with
  | nil => intro c; simp [runShares]
  | cons ev rest ih =>
    intro c
    simp only [runShares, applyShareEvent]
    rcases hca : checkAdjustment cfg { c with shareTimestamps := ev.ring }
        ev.wall with - | adj
    · simpa [hca] using ih { c with shareTimestamps := ev.ring }
    · simp only [hca]
      have hgate : cfg.retargetTime * 1000 ≤ ev.wall - c.lastDifficultyUpdate := by
        obtain ⟨x, hx, -, -⟩ := checkAdjustment_some hca
        have h3 := (checkAdjustmentCore_gates hx).2.2
        simpa using h3
      rw [List.chain'_cons]
      refine ⟨hgate, ?_⟩
      have htail := ih { { c with shareTimestamps := ev.ring } with
        diff := adj.newDiff, lastDifficultyUpdate := ev.wall }
      rw [List.chain'_cons'] at htail ⊢
      exact ⟨fun b hb => htail.1 b hb, htail.2⟩

/-- C8 amended: between two successive successful adjustments of a client,
at least retargetTime seconds of wall-clock (Date.now) time have elapsed —
the gate compares wall-clock values, not a monotonic clock (see the
counterexample for the monotonic reading). -/
theorem retarget_gate_wallclock (cfg : VarDiffConfig) (c : StratumClient)
    (events : List ShareEvent) :
    List.Chain' (fun a b : ℚ × ℚ => cfg.retargetTime * 1000 ≤ b.2 - a.2)
      (runShares cfg c events).2 :=
  (runShares_chain_aux cfg events c).tail

/-- C8 counterexample: a trace of two share events whose wall clocks are
90 s apart but whose monotonic clocks are 1 ms apart produces two
successful adjustments — the gate does not measure monotonic time, so a
wall-clock step forward admits adjustments arbitrarily close together. -/
theorem retarget_gate_monotonic_counterexample :
    (runShares cfgDefault client0 [ev1, ev2]).2 = [(0, 100000), (1, 190000)] ∧
      ev2.mono - ev1.mono < cfgDefault.retargetTime * 1000 := by
  constructor
  · norm_num [runShares, applyShareEvent, checkAdjustment, checkAdjustmentCore,
      proposedAdjustment, sumConsecutiveDiffs, clampScale, roundDifficulty_four,
      roundDifficulty_sixteen, max_def, min_def, cfgDefault, client0, ev1, ev2, abs]
  · norm_num [ev1, ev2, cfgDefault]

/-- C2: a valid share that makes VarDiff choose a new difficulty updates
client.diff and client.lastDifficultyUpdate, but no mining.set_difficulty
notification is sent and a TypeError is raised — class.Server.js defines no
sendDifficultyUpdate method, so the call in submitShare fails. -/
theorem submitShare_sendDifficultyUpdate_throws :
    (submitShareVarDiff cfgDefault clientFast9 true 100000).sentSetDifficulty
        = false ∧
      (submitShareVarDiff cfgDefault clientFast9 true 100000).thrown.isSome
        = true ∧
      (submitShareVarDiff cfgDefault clientFast9 true 100000).client.diff = 4 ∧
      (submitShareVarDiff cfgDefault clientFast9
        true 100000).client.lastDifficultyUpdate = 100000 := by
  have hm : ¬("sendDifficultyUpdate" ∈ serverMethodNames) := by decide
  norm_num [submitShareVarDiff, recordShare, hm, checkAdjustment,
    checkAdjustmentCore, proposedAdjustment, sumConsecutiveDiffs, clampScale,
    roundDifficulty_four, max_def, min_def, cfgDefault, clientFast9, abs]

/-- C1 counterexample: when submitblock returns the non-null rejection
string, the share emitted on shareSubmitted still carries
isValidBlock = true — the downgrade the spec describes does not happen on
this path. -/
theorem submitblock_reject_counterexample :
    shareBlock.isValidShare = true ∧ shareBlock.isValidBlock = true ∧
      (submitShareBlockPath shareBlock
        (SubmitBlockReply.result (some "high-hash"))
        (GetBlockReply.ok "txid")).isValidBlock = true := by
  refine ⟨rfl, rfl, rfl⟩

/-- C1 amended: on a non-null submitblock return value the submission is
treated as an error and the share event is emitted immediately with the
share unchanged (isValidBlock still true, isValidShare untouched); the
downgrade to valid-share-only happens only when submitblock succeeds and
the getblock verification then fails. -/
theorem submitblock_reject_amended :
    (∀ (share : Share) (r : String) (gb : GetBlockReply),
        submitShareBlockPath share (SubmitBlockReply.result (some r)) gb
          = share) ∧
    (∀ (share : Share) (m : String), share.isValidBlock = true →
        submitShareBlockPath share (SubmitBlockReply.result none)
          (GetBlockReply.rpcError m) = { share with isValidBlock := false }) := by
  constructor
  · intro share r gb
    simp [submitShareBlockPath, submitBlockOutcome]
  · intro share m hb
    simp [submitShareBlockPath, submitBlockOutcome, hb]

/-- Witness for the amended C1: concrete replies exercising both
branches. -/
theorem submitblock_reject_amended_witness :
    submitShareBlockPath shareBlock
        (SubmitBlockReply.result (some "bad-version")) (GetBlockReply.ok "tx")
        = shareBlock ∧
      submitShareBlockPath shareBlock (SubmitBlockReply.result none)
        (GetBlockReply.rpcError "Block not found")
        = { shareBlock with isValidBlock := false } :=
  ⟨submitblock_reject_amended.1 shareBlock "bad-version" (GetBlockReply.ok "tx"),
   submitblock_reject_amended.2 shareBlock "Block not found" rfl⟩

/-- C9: stopping a running server twice is observably the same as stopping
it once — the second call only invokes the callback (no disconnect, no
listener action), and the state after the first call already has the
listener closed, the client map empty and client count 0. -/
theorem stop_idempotent (s : ServerState) (hs : s.isStopped = false)
    (hl : s.hasListener = true) :
    (stop (stop s).1).1 = (stop s).1 ∧
      (stop (stop s).1).2 = [StopAction.callbackNow] ∧
      (stop s).1.clientMap = [] ∧ clientCount (stop s).1 = 0 ∧
      (stop s).1.listenerClosed = true := by
  simp [stop, hs, hl, clientCount]

/-- Witness for C9: a running server with two clients. -/
theorem stop_idempotent_witness :
    (stop (stop serverRunning).1).1 = (stop serverRunning).1 ∧
      (stop (stop serverRunning).1).2 = [StopAction.callbackNow] ∧
      (stop serverRunning).1.clientMap = [] ∧
      clientCount (stop serverRunning).1 = 0 ∧
      (stop serverRunning).1.listenerClosed = true :=
  stop_idempotent serverRunning rfl rfl

/-- C10: the verify wrapper is total (always returns a boolean in this
embedding) and returns false without consulting the native hasher whenever
the hasher is not loaded or any argument guard fails — the result is false
and identical for every native implementation. -/
theorem verify_total_and_guarded (kawpowLoaded : Bool)
    (native native2 : VerifyArgs → Bool) (a : VerifyArgs)
    (hbad : kawpowLoaded = false ∨ isBuf a.headerHashBuf 32 = false ∨
      isBuf a.nonceBuf 8 = false ∨ heightOk a.blockHeight = false ∨
      isBuf a.mixHashBuf 32 = false ∨ isBuf a.hashOutBuf 32 = false) :
    verify kawpowLoaded native a = false ∧
      verify kawpowLoaded native a = verify kawpowLoaded native2 a := by
  constructor
  · unfold verify; split_ifs <;> simp_all
  · unfold verify; split_ifs <;> simp_all

/-- Witness for C10: a 7-byte nonce buffer is rejected identically under an
accept-all and a reject-all native hasher. -/
theorem verify_total_and_guarded_witness :
    verify true nativeTrue argsBadNonce = false ∧
      verify true nativeTrue argsBadNonce = verify true nativeFalse argsBadNonce :=
  verify_total_and_guarded true nativeTrue nativeFalse argsBadNonce
    (Or.inr (Or.inr (Or.inl (by decide))))

/-- Helper for C5: the final retryCount never exceeds retryAttempts. -/
theorem cmdFinalRcAux_le (responses : ℕ → Except RpcError Unit) (rA : ℕ) :
    ∀ (fuel rc : ℕ), rc ≤ rA → cmdFinalRcAux responses rA fuel rc ≤ rA := by
  intro fuel
  induction fuel with
  | zero => intro rc h; simpa [cmdFinalRcAux] using h
  | succ f ih =>
    intro rc h
    rw [cmdFinalRcAux]
    cases hr : responses rc with
    | ok v => simpa [hr] using h
    | error e =>
      simp only [hr]
      split
      next hcond => exact ih (rc + 1) hcond.2
      next hcond => exact h

/-- Helper for C5: every attempt before the final one failed with an error
the retry predicate accepted. -/
theorem cmdFinalRcAux_retried (responses : ℕ → Except RpcError Unit) (rA : ℕ) :
    ∀ (fuel rc j : ℕ), rc ≤ j → j < cmdFinalRcAux responses rA fuel rc →
      ∃ e, responses j = Except.error e ∧ shouldRetry (some e) = true := by
  intro fuel
  induction fuel with
  | zero => intro rc j hj hlt; rw [cmdFinalRcAux] at hlt; omega
  | succ f ih =>
    intro rc j hj hlt
    rw [cmdFinalRcAux] at hlt
    cases hr : responses rc with
    | ok v => rw [hr] at hlt; simp only at hlt; omega
    | error e =>
      rw [hr] at hlt
      simp only at hlt
      split at hlt
      next hcond =>
        by_cases hje : j = rc
        · subst hje; exact ⟨e, hr, hcond.1⟩
        · exact ih (rc + 1) j (by omega) hlt
      next hcond => omega

/-- C5 amended: cmd retries at most retryAttempts times; every retry was
caused by an error _shouldRetry accepted; the callback receives the outcome
of the final attempt; the HTTP 401/403 auth errors are never retried; and
an RPC-level error is not retried unless its message contains the substring
timeout, in which case the timeout check (which runs before the RPC-error
check) retries it. -/
theorem rpc_retry_policy :
    (∀ (responses : ℕ → Except RpcError Unit) (retryAttempts : ℕ),
        cmdFinalRc responses retryAttempts ≤ retryAttempts) ∧
    (∀ (responses : ℕ → Except RpcError Unit) (retryAttempts j : ℕ),
        j < cmdFinalRc responses retryAttempts →
        ∃ e, responses j = Except.error e ∧ shouldRetry (some e) = true) ∧
    (∀ (responses : ℕ → Except RpcError Unit) (retryAttempts : ℕ),
        (cmdRun responses retryAttempts).2 =
          responses (cmdRun responses retryAttempts).1) ∧
    (shouldRetry (some authError401) = false ∧
      shouldRetry (some authError403) = false) ∧
    (∀ (msg : String) (code : ℤ), containsSub msg "timeout" = false →
        shouldRetry (some (mkRpcError msg code)) = false) := by
  refine ⟨?_, ?_, ?_, ⟨by decide, by decide⟩, ?_⟩
  · intro responses rA
    exact cmdFinalRcAux_le responses rA (rA + 1) 0 (Nat.zero_le _)
  · intro responses rA j hlt
    exact cmdFinalRcAux_retried responses rA (rA + 1) 0 j (Nat.zero_le _) hlt
  · intro responses rA; rfl
  · intro msg code hmsg
    simp [shouldRetry, mkRpcError, hmsg]

/-- Witness for the amended C5: a run with one RPC-timeout failure then a
success stays within the retry bound and delivers the final outcome, and a
plain RPC error is not retried. -/
theorem rpc_retry_policy_witness :
    cmdFinalRc respRpcTimeout 3 ≤ 3 ∧
      (cmdRun respRpcTimeout 3).2 = respRpcTimeout (cmdRun respRpcTimeout 3).1 ∧
      shouldRetry (some (mkRpcError "bad params" (-8))) = false :=
  ⟨rpc_retry_policy.1 respRpcTimeout 3, rpc_retry_policy.2.2.1 respRpcTimeout 3,
   rpc_retry_policy.2.2.2.2 "bad params" (-8) (by decide)⟩

/-- C5 counterexample: an RPC-level error (isRpcError) whose message
contains timeout is accepted by _shouldRetry, and cmd does retry it — the
final retryCount is 1, i.e. a second attempt ran after the RPC-level
failure. -/
theorem rpc_retry_counterexample :
    (mkRpcError "rpc operation timeout" (-1)).isRpcError = true ∧
      shouldRetry (some (mkRpcError "rpc operation timeout" (-1))) = true ∧
      cmdFinalRc respRpcTimeout 3 = 1 := by
  refine ⟨rfl, by decide, by decide⟩

/-- C4: on the repository unit-test response containing value:-nan followed
by a comma, _tryParseJson fails — the replacement swallows the comma,
producing invalid JSON — and on the response with -nan directly before the
closing brace the recursion never terminates (every fuel bound is
exhausted), because the replace pattern requires a trailing comma that is
not there. -/
theorem tryParseJson_nan_mangles :
    (tryParseJson 5 nanBody1).isFailed = true ∧
      (∀ fuel, (tryParseJson fuel nanBody2).isDiverged = true) := by
  constructor
  · decide
  · have h1 : jsonParse nanBody2 = none := by
      have h : (jsonParse nanBody2).isNone = true := by decide
      exact Option.isNone_iff_eq_none.mp h
    have h2 : containsSeq nanBody2 minusNanKey = true := by decide
    have h3 : replaceAll nanBody2 minusNanComma colonZero = nanBody2 := by decide
    intro fuel
    induction fuel with
    | zero => rfl
    | succ f ih =>
      simp only [tryParseJson, h1, h2, h3, if_true]
      exact ih

end Mynta
